import Mathlib

/-!
Shallow embedding of the POS automation framework
(repository pos-automation-framework).

The embedding covers:
* `data/csv_data_manager.py` — scenario loading, caching and validation;
* `config/config.py` (deployment package copy) — scenario data accessors;
* `utils/pos_base.py` — the `POSAutomation` driver primitives and the
  data-driven scenario steps;
* `02_addtems_promotion_cashSale.py` — `check_basket` and
  `click_button_by_text`;
* `deployment_packages/.../tests/conftest.py` — the
  `pos_automation_with_scenario` fixture;
* `tests/pos_automation/test_01_basic_cash_sale_data_driven.py` — the
  data-driven test body.

Conventions: Python values that flow through scenario records are modelled
by `PValue` (string / float / int) with Python truthiness; Python floats
from CSV cells are modelled as rationals (no claim here depends on binary
rounding); exceptions are modelled with `Except PyError`; UI state observed
by polling loops is a function from poll index to the observed controls.
-/

namespace POSModel

/-- A Python value as stored in a loaded scenario record: CSV cells are
strings, except that `load_scenarios` converts non-empty `expected_price`
and `cash_tender_amount` cells to floats and non-empty `quantity` cells to
ints. -/
inductive PValue where
  | str (s : String)
  | num (q : Rat)
  | int (n : Int)
  deriving Repr, DecidableEq

/-- Python truthiness of a `PValue`: empty string, `0.0` and `0` are falsy. -/
def PValue.truthy : PValue → Bool
  | .str s => s ≠ ""
  | .num q => q ≠ 0
  | .int n => n ≠ 0

/-- A row of `test_scenarios.csv` after `CSVDataManager.load_scenarios` has
converted the numeric columns (csv_data_manager.py lines 33-42).  The header
of the data file has exactly these ten columns (spec §6), so every loaded
row dict has all ten keys. -/
structure ScenarioRow where
  scenario_name : String
  user_name : String
  password : String
  ean_code : String
  item_name : String
  expected_price : PValue
  cash_tender_amount : PValue
  loyalty_number : String
  promotion_code : String
  quantity : PValue
  deriving Repr, DecidableEq

/-! ## CSVDataManager (data/csv_data_manager.py) -/

/-- Outcome of the attempt to open and parse the scenarios CSV file, as seen
by one call of `load_scenarios`: the file may be absent
(`FileNotFoundError`), the row loop may raise after some rows were already
appended to the cache, or all rows parse. -/
inductive ReadOutcome where
  | missing
  | failAfter (rows : List ScenarioRow)
  | ok (rows : List ScenarioRow)
  deriving Repr, DecidableEq

/-- `CSVDataManager.load_scenarios` (csv_data_manager.py lines 26-51),
with the instance attribute `_scenarios_cache` made explicit.  Result:
(returned list, new cache, whether the file was accessed).  When the cache
is filled the file is not touched; otherwise the cache is first set to `[]`,
rows are appended as they parse, and on `FileNotFoundError` or any other
exception the function returns the literal `[]` while the cache keeps
whatever was appended so far. -/
def load_scenarios (cache : Option (List ScenarioRow)) (fs : ReadOutcome) :
    List ScenarioRow × Option (List ScenarioRow) × Bool :=
  match cache with
  | some rows => (rows, some rows, false)
  | none =>
    match fs with
    | .missing => ([], some [], true)
    | .failAfter rows => ([], some rows, true)
    | .ok rows => (rows, some rows, true)

/-- `CSVDataManager.get_scenario_data` (csv_data_manager.py lines 87-96):
linear scan returning the first row whose `scenario_name` matches. -/
def get_scenario_data (scenarios : List ScenarioRow) (name : String) :
    Option ScenarioRow :=
  scenarios.find? (fun s => s.scenario_name == name)

/-- `CSVDataManager.validate_scenario_data` (csv_data_manager.py lines
132-150): the scenario must exist and the fields `user_name`, `ean_code`
and `cash_tender_amount` must all be truthy. -/
def validate_scenario_data (scenarios : List ScenarioRow) (name : String) :
    Bool :=
  match get_scenario_data scenarios name with
  | none => false
  | some s =>
      (s.user_name != "") && (s.ean_code != "") && s.cash_tender_amount.truthy

/-- The `pos_automation_with_scenario` fixture (deployment package
conftest.py lines 82-114) builds `POSAutomation(scenario_name)` and yields
it to the test body unless `automation.scenario_data` is falsy
(`pytest.fail` otherwise).  `scenario_data` is the row dict returned by
`get_scenario_data`, truthy exactly when the named row exists.  The fixture
never calls `validate_scenario_data`. -/
def fixture_runs_body (scenarios : List ScenarioRow) (name : String) : Bool :=
  (get_scenario_data scenarios name).isSome

/-! ## Config accessors (config/config.py) and POSAutomation data-driven
methods (utils/pos_base.py)

`POSAutomation.scenario_data` is the row returned by `get_scenario_data`
for the automation's scenario name; it is modelled as an
`Option ScenarioRow` parameter of each method. -/

/-- A Python exception escaping a function that was supposed to return a
boolean. -/
inductive PyError where
  | attributeError (msg : String)
  | typeError (msg : String)
  deriving Repr, DecidableEq

/-- A UI interaction performed by a driver call (a click or an
accessibility-tree query). -/
inductive UIEvent where
  | click (desc : String)
  | query (desc : String)
  deriving Repr, DecidableEq

/-- `Config.get_user_credentials` (config.py lines 60-68) via
`POSAutomation.get_user_credentials` (pos_base.py lines 42-46): the
`user_name` and `password` cells of the row, or `None`/`None` when the
scenario row is absent. -/
def get_user_credentials (sdata : Option ScenarioRow) :
    Option String × Option String :=
  match sdata with
  | some s => (some s.user_name, some s.password)
  | none => (none, none)

/-- Python truthiness of an optional string (`None` and `""` are falsy). -/
def optStrTruthy : Option String → Bool
  | none => false
  | some s => s != ""

/-- Item data returned by `Config.get_item_data` (config.py lines 70-80). -/
structure ItemData where
  ean_code : String
  item_name : String
  expected_price : PValue
  quantity : PValue
  deriving Repr, DecidableEq

/-- `Config.get_item_data` via `POSAutomation.get_item_data`: the item
fields of the row (`{}`, i.e. `none`, when the scenario row is absent).
Loaded rows always carry the `quantity` key, so the `.get('quantity', 1)`
default is never taken for a loaded row. -/
def get_item_data (sdata : Option ScenarioRow) : Option ItemData :=
  sdata.map fun s =>
    { ean_code := s.ean_code, item_name := s.item_name,
      expected_price := s.expected_price, quantity := s.quantity }

/-- Payment data returned by `Config.get_payment_data` (config.py lines
82-90). -/
structure PaymentData where
  cash_tender_amount : PValue
  loyalty_number : String
  promotion_code : String
  deriving Repr, DecidableEq

/-- `Config.get_payment_data` via `POSAutomation.get_payment_data`. -/
def get_payment_data (sdata : Option ScenarioRow) : Option PaymentData :=
  sdata.map fun s =>
    { cash_tender_amount := s.cash_tender_amount,
      loyalty_number := s.loyalty_number,
      promotion_code := s.promotion_code }

/-- `str()` applied to a scenario field value.  The exact float rendering is
immaterial to every claim; only the string's identity as data matters. -/
def PValue.pyStr : PValue → String
  | .str s => s
  | .num q => toString q
  | .int n => toString n

/-- `POSAutomation.execute_scenario_login` (pos_base.py lines 316-324).
When both credentials are truthy the body executes
`return self.login(credentials['username'], credentials['password'])`
(line 321); the class defines `login_to_pos` but no attribute `login`, and
nothing in the repository assigns one, so the attribute lookup raises
`AttributeError` before any UI interaction.  Otherwise the method prints an
error and returns `False`. -/
def execute_scenario_login (sdata : Option ScenarioRow) :
    Except PyError Bool :=
  let creds := get_user_credentials sdata
  if optStrTruthy creds.1 && optStrTruthy creds.2 then
    .error (.attributeError
      "POSAutomation object has no attribute login")
  else
    .ok false

/-- `POSAutomation.add_item_by_ean` (pos_base.py lines 369-385): a
placeholder whose `try` body only prints (all UI code is commented out), so
the `except` branch is unreachable; it performs no UI query or click and
returns `True`. -/
def add_item_by_ean (_ean_code : String) : Bool × List UIEvent :=
  (true, [])

/-- The `for i in range(quantity)` loop of `execute_scenario_add_item`
(pos_base.py lines 336-341): run `add_item_by_ean` the given number of
times, stopping with `False` at the first failure.  Result: (returned
boolean, iterations executed, UI events emitted). -/
def addItemLoop (ean_code : String) : Nat → Bool × Nat × List UIEvent
  | 0 => (true, 0, [])
  | k + 1 =>
    let step := add_item_by_ean ean_code
    if step.1 then
      let rest := addItemLoop ean_code k
      (rest.1, rest.2.1 + 1, step.2 ++ rest.2.2)
    else
      (false, 1, step.2)

/-- `POSAutomation.execute_scenario_add_item` (pos_base.py lines 326-346).
The guard is `if item_data and item_data.get('ean_code'):`; the item dict
is non-empty whenever the scenario row exists, so the guard reduces to the
EAN being a non-empty string.  `range(quantity)` requires `quantity` to be
an `int`; a float or a string (the value of an empty `quantity` CSV cell)
raises `TypeError`.  For `int` quantity the loop runs `max(quantity, 0)`
times. -/
def execute_scenario_add_item (sdata : Option ScenarioRow) :
    Except PyError (Bool × Nat × List UIEvent) :=
  match get_item_data sdata with
  | none => .ok (false, 0, [])
  | some item =>
    if item.ean_code != "" then
      match item.quantity with
      | .int n => .ok (addItemLoop item.ean_code n.toNat)
      | .num _ => .error (.typeError
          "float object cannot be interpreted as an integer")
      | .str _ => .error (.typeError
          "str object cannot be interpreted as an integer")
    else
      .ok (false, 0, [])

/-- `POSAutomation.complete_cash_transaction` (pos_base.py lines 387-408):
a placeholder whose `try` body only prints (all UI code is commented out),
so the `except` branch is unreachable; it performs no UI query or click and
returns `True`. -/
def complete_cash_transaction (_cash_amount : String) : Bool × List UIEvent :=
  (true, [])

/-- `POSAutomation.execute_scenario_payment` (pos_base.py lines 348-367).
The guard is `if payment_data and payment_data.get('cash_tender_amount'):`;
the payment dict is non-empty whenever the scenario row exists, so the
guard reduces to the truthiness of `cash_tender_amount` (a float `0.0` is
falsy).  On the truthy branch the method returns
`complete_cash_transaction(str(cash_amount))`. -/
def execute_scenario_payment (sdata : Option ScenarioRow) :
    Bool × List UIEvent :=
  match get_payment_data sdata with
  | none => (false, [])
  | some pd =>
    if pd.cash_tender_amount.truthy then
      complete_cash_transaction pd.cash_tender_amount.pyStr
    else
      (false, [])

/-! ## The data-driven test body
(tests/pos_automation/test_01_basic_cash_sale_data_driven.py lines 21-77) -/

/-- How a pytest test function ends: all asserts pass, an assert fails, or
an exception propagates out of a step. -/
inductive TestResult where
  | passed
  | assertFailed (msg : String)
  | errored (e : PyError)
  deriving Repr, DecidableEq

/-- Body of `test_add_single_item_complete_with_cash_data_driven`:
assert the scenario data is loaded, then `launch_pos`, `connect_to_pos`,
`execute_scenario_login`, `execute_scenario_add_item`,
`execute_scenario_payment`, each guarded by `assert success`.  The launch
and connect steps are modelled by their boolean outcomes (the claim under
study assumes both succeed).  Result: (test outcome, UI events emitted by
the scenario steps). -/
def test_basic_cash_sale_body (sdata : Option ScenarioRow)
    (launchOk connectOk : Bool) : TestResult × List UIEvent :=
  match sdata with
  | none => (.assertFailed "Scenario data not loaded", [])
  | some _ =>
    if !launchOk then
      (.assertFailed "Failed to launch POS application", [])
    else if !connectOk then
      (.assertFailed "Failed to connect to POS application", [])
    else
      match execute_scenario_login sdata with
      | .error e => (.errored e, [])
      | .ok loginOk =>
        if !loginOk then
          (.assertFailed "Failed to login", [])
        else
          match execute_scenario_add_item sdata with
          | .error e => (.errored e, [])
          | .ok addRes =>
            if !addRes.1 then
              (.assertFailed "Failed to add item", addRes.2.2)
            else
              let payRes := execute_scenario_payment sdata
              if !payRes.1 then
                (.assertFailed "Failed to complete cash payment",
                  addRes.2.2 ++ payRes.2)
              else
                (.passed, addRes.2.2 ++ payRes.2)

/-- The `basic_cash_sale` scenario record of the end-to-end example
(spec §8): `ean_code=9300675084147`, `cash_tender_amount=20.00`, with the
credentials the repository's scripts use and quantity 1. -/
def basicCashSaleRow : ScenarioRow :=
  { scenario_name := "basic_cash_sale"
    user_name := "atmgr5"
    password := "abcd1234"
    ean_code := "9300675084147"
    item_name := "Test Item"
    expected_price := .num 20
    cash_tender_amount := .num 20
    loyalty_number := ""
    promotion_code := ""
    quantity := .int 1 }

/-! ## Basket inspection (`check_basket`, 02_addtems_promotion_cashSale.py
lines 164-230) -/

/-- Decimal digits of a numeral string as a natural number (`int(txt)` /
the integer part of `float(txt)` for all-digit `txt`). -/
def charsToNat (cs : List Char) : Nat :=
  cs.foldl (fun a c => a * 10 + (c.toNat - 48)) 0

/-- Split a character list at the first character satisfying `p`:
(part before, `some` part after when a split character occurs). -/
def splitAtFirst (p : Char → Bool) : List Char → List Char × Option (List Char)
  | [] => ([], none)
  | c :: t =>
    if p c then ([], some t)
    else
      let r := splitAtFirst p t
      (c :: r.1, r.2)

/-- Strip a leading `+`/`-` sign, returning the sign and the rest. -/
def stripSign : List Char → Int × List Char
  | '+' :: t => (1, t)
  | '-' :: t => (-1, t)
  | t => (1, t)

/-- Whitespace stripped by Python's `str.strip` / float parsing. -/
def pyWhitespace (c : Char) : Bool :=
  c == ' ' || c == '\t' || c == '\n' || c == '\r'
    || c == '\x0b' || c == '\x0c'

/-- Strip leading and trailing whitespace from a character list. -/
def trimChars (cs : List Char) : List Char :=
  ((cs.dropWhile pyWhitespace).reverse.dropWhile pyWhitespace).reverse

/-- The exact value of the decimal `sgn * digits * 10 ^ (e - fracLen)`:
the number a float literal with mantissa digit string `digits`, `fracLen`
digits after the point, sign `sgn` and exponent `e` denotes. -/
def decToRat (sgn : Int) (digits : Nat) (fracLen : Nat) (e : Int) : Rat :=
  let shift : Int := e - (fracLen : Int)
  if 0 ≤ shift then
    mkRat (sgn * (digits : Int) * ((10 ^ shift.toNat : Nat) : Int)) 1
  else
    mkRat (sgn * (digits : Int)) (10 ^ (-shift).toNat)

/-- Python `float(s)` on the strings reaching it in `check_basket`,
modelled over the rationals (exact decimal value; no claim depends on
binary-float rounding): optional sign, decimal mantissa with at most one
point and at least one digit, optional `e`/`E` exponent; surrounding
whitespace ignored.  (Python's `inf`/`nan`/underscore literal forms are
not modelled; no string in any claim uses them.) -/
def parsePyFloat (s : String) : Option Rat :=
  let sg := stripSign (trimChars s.toList)
  let me := splitAtFirst (fun c => c == 'e' || c == 'E') sg.2
  let expVal : Option Int :=
    match me.2 with
    | none => some 0
    | some ecs =>
      let esg := stripSign ecs
      if !esg.2.isEmpty && esg.2.all Char.isDigit then
        some (esg.1 * (charsToNat esg.2 : Int))
      else
        none
  match expVal with
  | none => none
  | some e =>
    let ifr := splitAtFirst (fun c => c == '.') me.1
    let ip := ifr.1
    let fp := ifr.2.getD []
    if ip.all Char.isDigit && fp.all Char.isDigit
        && (!ip.isEmpty || !fp.isEmpty) then
      some (decToRat sg.1 (charsToNat (ip ++ fp)) fp.length e)
    else
      none

/-- The price trigger of `check_basket` line 188:
`any(c in txt for c in ["$", ".", ","])`. -/
def hasPriceChar (txt : String) : Bool :=
  txt.toList.any (fun c => c == '$' || c == '.' || c == ',')

/-- `txt.replace("$", "").replace(",", "")` (line 190); the subsequent
`.strip()` is subsumed by `parsePyFloat`'s trimming. -/
def stripPriceChars (txt : String) : String :=
  String.mk (txt.toList.filter (fun c => c != '$' && c != ','))

/-- A child text is classified as a price when it contains `$`, `.` or `,`
and, with `$` and `,` removed, parses as a float (lines 188-193). -/
def classifyPrice (txt : String) : Option Rat :=
  if hasPriceChar txt then parsePyFloat (stripPriceChars txt) else none

/-- Python `str.isdigit` restricted to ASCII: non-empty and all digits
(line 195; no text in any claim carries non-ASCII digits). -/
def pyIsDigit (txt : String) : Bool :=
  !txt.toList.isEmpty && txt.toList.all Char.isDigit

/-- Python `s.lower()` restricted to ASCII, as a character list. -/
def lowerChars (s : String) : List Char :=
  s.toList.map Char.toLower

/-- Substring containment, `needle in hay` on Python strings. -/
def charsContain (hay needle : List Char) : Bool :=
  hay.tails.any (fun t => needle.isPrefixOf t)

/-- The promotion-total condition of line 201, with Python's precedence:
`price < 0 or (name and "promotion" in name.lower() or "bonus" in
name.lower())`. -/
def promoCond (name : String) (price : Rat) : Bool :=
  decide (price < 0)
    || ((name != "") && charsContain (lowerChars name) "promotion".toList)
    || charsContain (lowerChars name) "bonus".toList

/-- The promotion-name condition of line 204: `"promotion" in name.lower()
or "bonus" in name.lower() or "ff" in name.lower()`. -/
def promoNameCond (name : String) : Bool :=
  charsContain (lowerChars name) "promotion".toList
    || charsContain (lowerChars name) "bonus".toList
    || charsContain (lowerChars name) "ff".toList

/-- One basket list item as `check_basket` observes it: its
`window_text()` and the texts of its child controls, in enumeration
order. -/
structure BasketLine where
  name : String
  children : List String
  deriving Repr, DecidableEq

/-- One step of the child loop (lines 185-196): a price classification
overwrites the line's `price` variable, a digit string overwrites its
`quantity` variable. -/
def lineScanStep (acc : Option Rat × Option Nat) (txt : String) :
    Option Rat × Option Nat :=
  let p := match classifyPrice txt with
    | some v => some v
    | none => acc.1
  let q := if pyIsDigit txt then some (charsToNat txt.toList) else acc.2
  (p, q)

/-- The child loop of one basket line: final `price` and `quantity`
variables. -/
def lineScan (children : List String) : Option Rat × Option Nat :=
  children.foldl lineScanStep (none, none)

/-- Running totals of the item loop of `check_basket`. -/
structure BasketAcc where
  total : Rat
  promoTotal : Rat
  promotionFound : Bool
  deriving Repr, DecidableEq

/-- The body of the item loop (lines 180-206): if the line ended with a
price, add it to the total and — under `promoCond` — to the promotion
total; then set `promotion_found` when the name matches
`promoNameCond`. -/
def processLine (acc : BasketAcc) (line : BasketLine) : BasketAcc :=
  let scan := lineScan line.children
  let acc1 :=
    match scan.1 with
    | some p =>
      if promoCond line.name p then
        { total := acc.total + p, promoTotal := acc.promoTotal + p,
          promotionFound := true }
      else
        { acc with total := acc.total + p }
    | none => acc
  if promoNameCond line.name then
    { acc1 with promotionFound := true }
  else
    acc1

/-- What `check_basket` computes and returns. -/
structure CheckBasketResult where
  total : Rat
  promoTotal : Rat
  promotionFound : Bool
  basketFound : Bool
  retval : Bool
  deriving Repr, DecidableEq

/-- `check_basket` (lines 164-230).  `basket` is `none` when no
List/ListBox/ListView control is found; in that branch the code prints
"Could not find basket", clicks OK and still returns `True` (line 230).
With a basket present it folds the item loop over the lines, prints the
totals, clicks OK and returns `True` on both the promotion and the
no-promotion branch. -/
def check_basket (basket : Option (List BasketLine)) : CheckBasketResult :=
  match basket with
  | none =>
    { total := 0, promoTotal := 0, promotionFound := false,
      basketFound := false, retval := true }
  | some lines =>
    let acc := lines.foldl processLine ⟨0, 0, false⟩
    { total := acc.total, promoTotal := acc.promoTotal,
      promotionFound := acc.promotionFound, basketFound := true,
      retval := true }

/-! ## `click_button_by_text` (pos_base.py lines 190-214;
02_addtems_promotion_cashSale.py lines 102-125) -/

/-- A button control as the polling loop observes it. -/
structure UIButton where
  text : String
  visible : Bool
  enabled : Bool
  uid : Nat
  deriving Repr, DecidableEq

/-- The match condition of lines 200-201: exact text equality and the
control is visible and enabled at the moment it is inspected. -/
def buttonMatches (button_text : String) (b : UIButton) : Bool :=
  b.text == button_text && b.visible && b.enabled

/-- The inner `for` loop: first matching button of one poll, in
enumeration order. -/
def findTarget (button_text : String) (buttons : List UIButton) :
    Option UIButton :=
  buttons.find? (buttonMatches button_text)

/-- The `while time.time() - start_time < timeout` loop: one UI poll per
iteration (`polls i` is the button list `descendants` returns at poll `i`),
stopping at the first poll with a match.  `fuel` is the number of polls the
wall-clock budget allows (`0` when `timeout <= 0`). -/
def clickPollLoop (polls : Nat → List UIButton) (button_text : String) :
    Nat → Nat → Option UIButton
  | _, 0 => none
  | i, fuel + 1 =>
    match findTarget button_text (polls i) with
    | some b => some b
    | none => clickPollLoop polls button_text (i + 1) fuel

/-- `click_button_by_text`: `some b` models clicking button `b` and
returning `True`; `none` models printing the not-found message and
returning `False` (no exception is raised on the timeout path). -/
def click_button_by_text (polls : Nat → List UIButton) (numPolls : Nat)
    (button_text : String) : Option UIButton :=
  clickPollLoop polls button_text 0 numPolls

/-! ## `_clear_ean_field` (pos_base.py lines 240-254;
02_addtems_promotion_cashSale.py lines 135-147) -/

/-- Observable outcome of the clearing routine: loop iterations executed,
back-space click attempts issued, and whether the success message was
printed.  The routine has no other outcome — it returns `None` in Python
regardless. -/
structure ClearResult where
  iterations : Nat
  clicks : Nat
  reportedCleared : Bool
  deriving Repr, DecidableEq

/-- An edit field counts as empty when `val.strip()` is falsy. -/
def fieldEmpty (val : String) : Bool :=
  (trimChars val.toList).isEmpty

/-- The per-iteration `cleared` flag: every observed edit field is empty. -/
def allCleared (fields : List String) : Bool :=
  fields.all fieldEmpty

/-- Number of non-empty fields in one iteration — each issues one
`click_button_by_text("<<")` attempt. -/
def dirtyCount (fields : List String) : Nat :=
  (fields.filter (fun v => !fieldEmpty v)).length

/-- The `for _ in range(max_clear_attempts)` loop: at iteration `iterDone`
the routine reads `fieldsAt iterDone`; if all fields are empty it prints
"EAN field cleared" and breaks, otherwise it clicks back-space once per
non-empty field and continues. -/
def clearFieldLoop (fieldsAt : Nat → List String) :
    Nat → Nat → Nat → ClearResult
  | iterDone, clicks, 0 => ⟨iterDone, clicks, false⟩
  | iterDone, clicks, fuel + 1 =>
    let fields := fieldsAt iterDone
    if allCleared fields then
      ⟨iterDone + 1, clicks, true⟩
    else
      clearFieldLoop fieldsAt (iterDone + 1) (clicks + dirtyCount fields) fuel

/-- `POSAutomation._clear_ean_field` with `max_clear_attempts = 20`. -/
def clear_ean_field (fieldsAt : Nat → List String) : ClearResult :=
  clearFieldLoop fieldsAt 0 0 20

/-! ## Auxiliary concrete records used by counterexamples and witnesses -/

/-- A scenario row that exists in the data file but has an empty
`ean_code` cell. -/
def emptyEanRow : ScenarioRow :=
  { basicCashSaleRow with ean_code := "" }

/-- A scenario row whose `cash_tender_amount` CSV cell was the non-empty
string "0.00": `load_scenarios` converts it to the float `0.0`. -/
def zeroCashRow : ScenarioRow :=
  { basicCashSaleRow with
    scenario_name := "zero_cash_sale"
    cash_tender_amount := .num 0 }

/-- The quantity classifier of `check_basket` line 195: the text parses to
an `int` exactly when it is a non-empty all-digit string. -/
def qtyClassify (txt : String) : Option Nat :=
  if pyIsDigit txt then some (charsToNat txt.toList) else none

/-- The last successful classification in a child list — the value that
survives the overwrite-on-each-match loop of `check_basket`. -/
def lastClassified (f : String → Option α) : List String → Option α
  | [] => none
  | t :: ts => (lastClassified f ts).or (f t)

/-- The price a basket line contributes to the total: the LAST
price-classified child text, or nothing. -/
def lineTotalContrib (l : BasketLine) : Rat :=
  (lastClassified classifyPrice l.children).getD 0

/-- The amount a basket line contributes to the promotion total. -/
def linePromoContrib (l : BasketLine) : Rat :=
  match lastClassified classifyPrice l.children with
  | some p => if promoCond l.name p then p else 0
  | none => 0

/-- Stated from the spec sentence of C6, for comparison with
`check_basket`: the basket total under the claim's reading that EVERY
child text classified as a price is added to the basket total. -/
def specClaimedBasketTotal (lines : List BasketLine) : Rat :=
  (lines.map (fun l => (l.children.filterMap classifyPrice).sum)).sum

/-- A basket line with two price-classified children, separating the code
from the claim's reading. -/
def twoPriceLine : BasketLine :=
  { name := "Item A", children := ["1.1", "2.2"] }

/-! ## Helper lemmas -/

/-- `execute_scenario_login` raises `AttributeError` whenever the scenario
row carries non-empty credentials, because line 321 of pos_base.py invokes
the undefined attribute `self.login`. -/
theorem execute_scenario_login_raises (s : ScenarioRow)
    (hu : s.user_name ≠ "") (hp : s.password ≠ "") :
    execute_scenario_login (some s)
      = .error (.attributeError
          "POSAutomation object has no attribute login") := by
  unfold execute_scenario_login get_user_credentials optStrTruthy
  simp [hu, hp]

/-- The add-item loop of `execute_scenario_add_item` always returns `True`
after running all its iterations with an empty UI trace, because
`add_item_by_ean` is a placeholder that always succeeds. -/
theorem addItemLoop_eq (ean_code : String) (k : Nat) :
    addItemLoop ean_code k = (true, k, []) := by
  induction k with
  | zero => rfl
  | succ k ih => simp [addItemLoop, add_item_by_ean, ih]

/-- The child loop of `check_basket` from an arbitrary accumulator: the
surviving `price`/`quantity` variables are the last classifications, with
the incoming accumulator as fallback. -/
theorem foldl_lineScanStep (cs : List String) (a : Option Rat)
    (b : Option Nat) :
    cs.foldl lineScanStep (a, b)
      = ((lastClassified classifyPrice cs).or a,
         (lastClassified qtyClassify cs).or b) := by
  induction cs generalizing a b with
  | nil => rfl
  | cons t ts ih =>
    simp only [List.foldl_cons, ih, lastClassified]
    cases hc : classifyPrice t <;> cases hd : pyIsDigit t <;>
      simp only [lineScanStep, qtyClassify, hc, hd, if_true, if_false] <;>
      cases lastClassified classifyPrice ts <;>
      cases lastClassified qtyClassify ts <;>
      simp [Option.or]

/-- `lineScan` returns the last price classification and the last quantity
classification of the child list. -/
theorem lineScan_eq (cs : List String) :
    lineScan cs
      = (lastClassified classifyPrice cs, lastClassified qtyClassify cs) := by
  unfold lineScan
  rw [foldl_lineScanStep]
  simp [Option.or_none]

/-- `processLine` adds exactly the line's surviving price to the total. -/
theorem processLine_total (acc : BasketAcc) (l : BasketLine) :
    (processLine acc l).total = acc.total + lineTotalContrib l := by
  simp only [processLine, lineScan_eq, lineTotalContrib]
  cases lastClassified classifyPrice l.children with
  | none => cases promoNameCond l.name <;> simp
  | some p =>
    cases hpc : promoCond l.name p <;> cases promoNameCond l.name <;>
      simp [hpc]

/-- `processLine` adds the line's surviving price to the promotion total
exactly under `promoCond`. -/
theorem processLine_promo (acc : BasketAcc) (l : BasketLine) :
    (processLine acc l).promoTotal = acc.promoTotal + linePromoContrib l := by
  simp only [processLine, lineScan_eq, linePromoContrib]
  cases lastClassified classifyPrice l.children with
  | none => cases promoNameCond l.name <;> simp
  | some p =>
    cases hpc : promoCond l.name p <;> cases promoNameCond l.name <;>
      simp [hpc]

/-- The basket item loop sums the per-line contributions to the total. -/
theorem foldl_processLine_total (lines : List BasketLine) (acc : BasketAcc) :
    (lines.foldl processLine acc).total
      = acc.total + (lines.map lineTotalContrib).sum := by
  induction lines generalizing acc with
  | nil => simp
  | cons l ls ih =>
    simp only [List.foldl_cons, List.map_cons, List.sum_cons, ih,
      processLine_total]
    ring

/-- The basket item loop sums the per-line contributions to the promotion
total. -/
theorem foldl_processLine_promo (lines : List BasketLine) (acc : BasketAcc) :
    (lines.foldl processLine acc).promoTotal
      = acc.promoTotal + (lines.map linePromoContrib).sum := by
  induction lines generalizing acc with
  | nil => simp
  | cons l ls ih =>
    simp only [List.foldl_cons, List.map_cons, List.sum_cons, ih,
      processLine_promo]
    ring

/-! ## Claim theorems -/

/-- C10: `load_scenarios` caches non-atomically on error.  On a first call
(`cache = none`) whose read raises after `rows` were already parsed, the
call returns `[]` but retains `rows` as the cache, so every subsequent
call returns `rows` without touching the file (third component `false`);
and when the file is missing on the first call, the empty cache is
retained, so the file is never re-read on later calls. -/
theorem C10_load_scenarios_nonatomic_cache (rows : List ScenarioRow)
    (fs : ReadOutcome) :
    load_scenarios none (.failAfter rows) = ([], some rows, true) ∧
    load_scenarios (some rows) fs = (rows, some rows, false) ∧
    load_scenarios none .missing = ([], some [], true) ∧
    load_scenarios (some []) fs = ([], some [], false) :=
  ⟨rfl, rfl, rfl, rfl⟩

/-- C4 counterexample: a scenario record present in the data file with an
empty `ean_code` is indeed rejected by `validate_scenario_data`, but the
`pos_automation_with_scenario` fixture still runs the scenario body on it
(the fixture only checks that the record exists and never calls
`validate_scenario_data`), contradicting the claim that the record is
rejected before any scenario step executes. -/
theorem C4_counterexample :
    validate_scenario_data [emptyEanRow] "basic_cash_sale" = false ∧
    fixture_runs_body [emptyEanRow] "basic_cash_sale" = true := by
  constructor
  · rfl
  · rfl

/-- C4 amended: for every scenario record loaded from the data file in
which `user_name`, `ean_code` or `cash_tender_amount` is empty (falsy),
`validate_scenario_data` returns `False` for it — but the test harness
does not consult it: the `pos_automation_with_scenario` fixture runs the
scenario body whenever the named record merely exists. -/
theorem C4_amended_validation_not_enforced (scenarios : List ScenarioRow)
    (name : String) (s : ScenarioRow)
    (hfind : get_scenario_data scenarios name = some s)
    (hempty : s.user_name = "" ∨ s.ean_code = ""
      ∨ s.cash_tender_amount.truthy = false) :
    validate_scenario_data scenarios name = false ∧
    fixture_runs_body scenarios name = true := by
  constructor
  · unfold validate_scenario_data
    rw [hfind]
    rcases hempty with h | h | h <;> simp [h]
  · unfold fixture_runs_body
    rw [hfind]
    rfl

/-- C4 witness: the amended statement evaluated on a concrete data file
holding one record with an empty `ean_code`. -/
theorem C4_amended_witness :
    validate_scenario_data [emptyEanRow] "basic_cash_sale" = false ∧
    fixture_runs_body [emptyEanRow] "basic_cash_sale" = true :=
  C4_amended_validation_not_enforced [emptyEanRow] "basic_cash_sale"
    emptyEanRow (by rfl) (Or.inr (Or.inl (by rfl)))

/-- C2: two failure-semantics violations, evaluated.  First,
`execute_scenario_login` on the `basic_cash_sale` record does not return a
boolean at all: it raises `AttributeError`, because line 321 of pos_base.py
calls `self.login` while the class only defines `login_to_pos`.  Second,
`check_basket`'s failure branch (no basket control found, line 230 of
02_addtems_promotion_cashSale.py) returns `True`. -/
theorem C2_failure_semantics_violated :
    execute_scenario_login (some basicCashSaleRow)
      = .error (.attributeError
          "POSAutomation object has no attribute login") ∧
    (check_basket none).basketFound = false ∧
    (check_basket none).retval = true :=
  ⟨rfl, rfl, rfl⟩

/-- C1 counterexample: on the `basic_cash_sale` record
(`ean_code = 9300675084147`, `cash_tender_amount = 20.00`), with
`launch_pos` and `connect_to_pos` succeeding, the scenario body does not
perform the claimed sequence: it terminates with an `AttributeError` at the
login step (never reaching a loyalty popup, a cash tender button, a
suggested amount or a receipt popup — the emitted UI trace is empty) and
in particular does not return `True`. -/
theorem C1_counterexample :
    test_basic_cash_sale_body (some basicCashSaleRow) true true
      = (.errored (.attributeError
          "POSAutomation object has no attribute login"), []) ∧
    (test_basic_cash_sale_body (some basicCashSaleRow) true true).1
      ≠ .passed := by
  constructor
  · rfl
  · intro h
    exact absurd h (by decide)

/-- C1 amended: for every scenario record with non-empty credentials
(such as `basic_cash_sale`), assuming `launch_pos` and `connect_to_pos`
succeed, the scenario body stops at the login step with an
`AttributeError` (`execute_scenario_login` calls the undefined
`self.login`; the class defines `login_to_pos`), before the add-item and
payment steps, emitting no UI events: no loyalty-popup dismissal, no cash
tender click, no suggested-amount selection and no receipt click occur in
the data-driven path, whose add-item and payment steps are placeholders. -/
theorem C1_amended_body_errors_at_login (s : ScenarioRow)
    (hu : s.user_name ≠ "") (hp : s.password ≠ "") :
    test_basic_cash_sale_body (some s) true true
      = (.errored (.attributeError
          "POSAutomation object has no attribute login"), []) := by
  unfold test_basic_cash_sale_body
  rw [execute_scenario_login_raises s hu hp]
  rfl

/-- C1 witness: the amended statement evaluated on the `basic_cash_sale`
record. -/
theorem C1_amended_witness :
    test_basic_cash_sale_body (some basicCashSaleRow) true true
      = (.errored (.attributeError
          "POSAutomation object has no attribute login"), []) :=
  C1_amended_body_errors_at_login basicCashSaleRow (by decide) (by decide)

/-- C3 counterexample: a scenario whose `cash_tender_amount` cell was the
non-empty string "0.00" is loaded as the float `0.0`, which is falsy, so
`execute_scenario_payment` returns `False` — contradicting the claim that
it returns `True` for every scenario whose `cash_tender_amount` is
non-empty. -/
theorem C3_counterexample :
    zeroCashRow.cash_tender_amount ≠ PValue.str "" ∧
    (execute_scenario_payment (some zeroCashRow)).1 = false := by
  constructor
  · intro h
    exact absurd h (by decide)
  · rfl

/-- C3 amended: `add_item_by_ean` and `complete_cash_transaction` return
`True` with no UI query or click for every input; consequently
`execute_scenario_add_item` returns `True` for every scenario whose
`ean_code` is non-empty and whose `quantity` field is an integer `n`
(after exactly `n.toNat` iterations; a non-integer quantity, e.g. the
empty string of an empty CSV cell, instead raises `TypeError`), and
`execute_scenario_payment` returns `True` for every scenario whose
`cash_tender_amount` is truthy (non-empty and non-zero), independent of
the actual POS state. -/
theorem C3_amended_placeholder_steps (s : ScenarioRow) :
    (∀ e, add_item_by_ean e = (true, [])) ∧
    (∀ a, complete_cash_transaction a = (true, [])) ∧
    (∀ n : Int, s.ean_code ≠ "" → s.quantity = .int n →
      execute_scenario_add_item (some s) = .ok (true, n.toNat, [])) ∧
    (s.cash_tender_amount.truthy = true →
      execute_scenario_payment (some s) = (true, [])) := by
  refine ⟨fun _ => rfl, fun _ => rfl, ?_, ?_⟩
  · intro n hne hq
    unfold execute_scenario_add_item get_item_data
    simp [hne, hq, addItemLoop_eq]
  · intro h
    unfold execute_scenario_payment get_payment_data
    simp [h, complete_cash_transaction]

/-- C3 witness: the amended statement evaluated on the `basic_cash_sale`
record (quantity 1, cash amount 20.00). -/
theorem C3_amended_witness :
    execute_scenario_add_item (some basicCashSaleRow) = .ok (true, 1, []) ∧
    execute_scenario_payment (some basicCashSaleRow) = (true, []) :=
  ⟨(C3_amended_placeholder_steps basicCashSaleRow).2.2.1 1 (by decide) rfl,
   (C3_amended_placeholder_steps basicCashSaleRow).2.2.2 (by decide)⟩

/-- C5: noninterference with `expected_price`.  For any two scenario
records that differ only in `expected_price`, every data-driven step's
result is identical, and the whole test body's outcome and the basket
total of `check_basket` are identical as well — `check_basket` takes only
the observed UI as input (the record is not even in scope in its body,
02_addtems_promotion_cashSale.py lines 164-230), so its total is never
compared against `expected_price`. -/
theorem C5_expected_price_never_used (s : ScenarioRow) (p : PValue)
    (basket : Option (List BasketLine)) (launchOk connectOk : Bool) :
    execute_scenario_login (some { s with expected_price := p })
      = execute_scenario_login (some s) ∧
    execute_scenario_add_item (some { s with expected_price := p })
      = execute_scenario_add_item (some s) ∧
    execute_scenario_payment (some { s with expected_price := p })
      = execute_scenario_payment (some s) ∧
    test_basic_cash_sale_body (some { s with expected_price := p })
        launchOk connectOk
      = test_basic_cash_sale_body (some s) launchOk connectOk ∧
    (check_basket basket).total = (check_basket basket).total :=
  ⟨rfl, rfl, rfl, rfl, rfl⟩

/-- C6 counterexample: on a basket line with the two price-classified
child texts "1.1" and "2.2", `check_basket` totals only the last one
(2.2), not both as the claim's "each classified price is added" reading
(`specClaimedBasketTotal`) requires. -/
theorem C6_counterexample :
    (check_basket (some [twoPriceLine])).total = mkRat 11 5 ∧
    specClaimedBasketTotal [twoPriceLine] = mkRat 33 10 ∧
    (check_basket (some [twoPriceLine])).total
      ≠ specClaimedBasketTotal [twoPriceLine] := by
  have h1 : classifyPrice "1.1" = some (mkRat 11 10) := by decide
  have h2 : classifyPrice "2.2" = some (mkRat 11 5) := by decide
  have htot : (check_basket (some [twoPriceLine])).total = mkRat 11 5 := by
    show (List.foldl processLine ⟨0, 0, false⟩ [twoPriceLine]).total = _
    rw [foldl_processLine_total]
    simp [lineTotalContrib, twoPriceLine, lastClassified, h1, h2, Option.or]
  have hspec : specClaimedBasketTotal [twoPriceLine] = mkRat 33 10 := by
    simp only [specClaimedBasketTotal, twoPriceLine, List.map_cons,
      List.map_nil, List.filterMap_cons, List.filterMap_nil, h1, h2,
      List.sum_cons, List.sum_nil]
    rw [Rat.mkRat_eq_div, Rat.mkRat_eq_div, Rat.mkRat_eq_div]
    norm_num
  refine ⟨htot, hspec, ?_⟩
  rw [htot, hspec]
  decide

/-- C6 amended: in `check_basket`, a child text is classified as a price
if and only if it contains a dollar sign, point or comma and parses as a
float with dollar signs and commas removed, and classified as a quantity
if and only if it is a non-empty all-digit string — but within one line
each later classification overwrites the earlier one, so only the LAST
classified price of the line is added to the basket total, and that price
is added to the promotion total if and only if it is negative or the
line's name contains "promotion" or "bonus" (case-insensitive). -/
theorem C6_amended_classification (lines : List BasketLine) :
    (check_basket (some lines)).total
      = (lines.map lineTotalContrib).sum ∧
    (check_basket (some lines)).promoTotal
      = (lines.map linePromoContrib).sum ∧
    (∀ cs, lineScan cs
      = (lastClassified classifyPrice cs, lastClassified qtyClassify cs)) ∧
    (∀ txt, classifyPrice txt
      = if hasPriceChar txt then parsePyFloat (stripPriceChars txt)
        else none) ∧
    (∀ txt, qtyClassify txt
      = if pyIsDigit txt then some (charsToNat txt.toList) else none) ∧
    (∀ name p, promoCond name p
      = (decide (p < 0)
          || charsContain (lowerChars name) "promotion".toList
          || charsContain (lowerChars name) "bonus".toList)) := by
  refine ⟨?_, ?_, lineScan_eq, fun _ => rfl, fun _ => rfl, ?_⟩
  · show (lines.foldl processLine ⟨0, 0, false⟩).total = _
    rw [foldl_processLine_total]
    ring
  · show (lines.foldl processLine ⟨0, 0, false⟩).promoTotal = _
    rw [foldl_processLine_promo]
    ring
  · intro name p
    by_cases h : name = ""
    · subst h
      have hpromo :
          charsContain (lowerChars "")
            ['p', 'r', 'o', 'm', 'o', 't', 'i', 'o', 'n'] = false := by
        decide
      simp [promoCond, hpromo]
    · have hb : (name != "") = true := bne_iff_ne.mpr h
      simp [promoCond, hb]

/-- C6 witness: the amended total formula evaluated on the two-price
line. -/
theorem C6_amended_witness :
    (check_basket (some [twoPriceLine])).total
      = ([twoPriceLine].map lineTotalContrib).sum :=
  (C6_amended_classification [twoPriceLine]).1

/-- Characterization of a successful `List.find?`: the found element
satisfies the predicate and everything before it in enumeration order does
not. -/
theorem find?_eq_some_split {α : Type} {p : α → Bool} {l : List α} {b : α}
    (h : l.find? p = some b) :
    p b = true ∧ ∃ pre post, l = pre ++ b :: post
      ∧ ∀ a ∈ pre, p a = false := by
  induction l with
  | nil => simp [List.find?] at h
  | cons x xs ih =>
    by_cases hx : p x = true
    · rw [List.find?_cons_of_pos _ hx] at h
      obtain rfl : x = b := by injection h
      exact ⟨hx, [], xs, rfl, by simp⟩
    · rw [List.find?_cons_of_neg _ (by simpa using hx)] at h
      obtain ⟨hpb, pre, post, heq, hpre⟩ := ih h
      refine ⟨hpb, x :: pre, post, by rw [heq, List.cons_append], ?_⟩
      intro a ha
      rcases List.mem_cons.mp ha with rfl | ha2
      · simpa using hx
      · exact hpre a ha2

/-- The polling loop, begun at poll `s` with `fuel` polls left, clicks `b`
only when some poll `i` within budget finds `b` while every earlier poll
since `s` found nothing. -/
theorem clickPollLoop_some_spec (polls : Nat → List UIButton)
    (button_text : String) :
    ∀ fuel s b, clickPollLoop polls button_text s fuel = some b →
      ∃ i, s ≤ i ∧ i < s + fuel
        ∧ findTarget button_text (polls i) = some b
        ∧ ∀ j, s ≤ j → j < i → findTarget button_text (polls j) = none := by
  intro fuel
  induction fuel with
  | zero =>
    intro s b h
    simp [clickPollLoop] at h
  | succ n ih =>
    intro s b h
    simp only [clickPollLoop] at h
    cases hf : findTarget button_text (polls s) with
    | some b0 =>
      rw [hf] at h
      simp only [] at h
      obtain rfl : b0 = b := by injection h
      exact ⟨s, le_refl s, by omega, hf, fun j hsj hjs => absurd hjs (by omega)⟩
    | none =>
      rw [hf] at h
      simp only [] at h
      obtain ⟨i, h1, h2, h3, h4⟩ := ih (s + 1) b h
      refine ⟨i, by omega, by omega, h3, ?_⟩
      intro j hj hji
      rcases Nat.eq_or_lt_of_le hj with rfl | hlt
      · exact hf
      · exact h4 j hlt hji

/-- C7: whenever `click_button_by_text` clicks a control `b`, then `b`'s
visible text equals `button_text` and `b` was visible and enabled at the
moment it was found (so an invisible or disabled control is never clicked,
even with matching text); moreover `b` was found at the first poll with any
match, and in that poll's enumeration order every control before `b` fails
the match, i.e. `b` is the first match. -/
theorem C7_click_safety (polls : Nat → List UIButton) (numPolls : Nat)
    (button_text : String) (b : UIButton)
    (h : click_button_by_text polls numPolls button_text = some b) :
    b.text = button_text ∧ b.visible = true ∧ b.enabled = true ∧
    ∃ i, i < numPolls
      ∧ (∀ j, j < i → findTarget button_text (polls j) = none)
      ∧ ∃ pre post, polls i = pre ++ b :: post
          ∧ ∀ b2 ∈ pre, buttonMatches button_text b2 = false := by
  obtain ⟨i, h0, hlt, hfind, hnone⟩ :=
    clickPollLoop_some_spec polls button_text numPolls 0 b h
  simp only [findTarget] at hfind
  obtain ⟨hmatch, pre, post, heq, hpre⟩ := find?_eq_some_split hfind
  simp only [buttonMatches, Bool.and_eq_true, beq_iff_eq] at hmatch
  refine ⟨hmatch.1.1, hmatch.1.2, hmatch.2, i, by omega, ?_, pre, post, heq,
    hpre⟩
  intro j hj
  exact hnone j (Nat.zero_le j) hj

/-- The polls the C7 witness runs against: a disabled "9" button listed
before an enabled one. -/
def c7Polls : Nat → List UIButton :=
  fun _ => [⟨"9", true, false, 0⟩, ⟨"9", true, true, 1⟩]

/-- C7 witness: the safety statement evaluated where the enabled "9"
button is clicked and the disabled one before it is skipped. -/
theorem C7_witness :
    (⟨"9", true, true, 1⟩ : UIButton).text = "9"
      ∧ (⟨"9", true, true, 1⟩ : UIButton).visible = true
      ∧ (⟨"9", true, true, 1⟩ : UIButton).enabled = true
      ∧ ∃ i, i < 2
          ∧ (∀ j, j < i → findTarget "9" (c7Polls j) = none)
          ∧ ∃ pre post,
              c7Polls i = pre ++ (⟨"9", true, true, 1⟩ : UIButton) :: post
              ∧ ∀ b2 ∈ pre, buttonMatches "9" b2 = false :=
  C7_click_safety c7Polls 2 "9" ⟨"9", true, true, 1⟩ (by decide)

/-- If every poll in the budget is free of matches, the polling loop
returns nothing. -/
theorem clickPollLoop_none (polls : Nat → List UIButton)
    (button_text : String) :
    ∀ fuel s,
      (∀ i, s ≤ i → i < s + fuel →
        findTarget button_text (polls i) = none) →
      clickPollLoop polls button_text s fuel = none := by
  intro fuel
  induction fuel with
  | zero => intro s _; rfl
  | succ n ih =>
    intro s h
    have h0 : findTarget button_text (polls s) = none :=
      h s (le_refl s) (by omega)
    simp only [clickPollLoop, h0]
    exact ih (s + 1) (fun i h1 h2 => h i (by omega) (by omega))

/-- C8: for every `button_text` and every poll budget, if at no poll
before the timeout elapses any button is simultaneously text-matching,
visible and enabled, `click_button_by_text` returns `False` (it is a total
function of the observed polls: no exception is raised on this path). -/
theorem C8_timeout_returns_false (polls : Nat → List UIButton)
    (numPolls : Nat) (button_text : String)
    (h : ∀ i, i < numPolls → ∀ b ∈ polls i,
        buttonMatches button_text b = false) :
    click_button_by_text polls numPolls button_text = none := by
  unfold click_button_by_text
  apply clickPollLoop_none
  intro i _ hi
  unfold findTarget
  rw [List.find?_eq_none]
  intro b hb
  simp [h i (by omega) b hb]

/-- The polls the C8 witness runs against: a "Cash" button whose text
matches but which is never enabled. -/
def c8Polls : Nat → List UIButton :=
  fun _ => [⟨"Cash", true, false, 0⟩]

/-- C8 witness: the timeout statement evaluated where the only matching
button stays disabled for all three polls. -/
theorem C8_witness :
    click_button_by_text c8Polls 3 "Cash" = none :=
  C8_timeout_returns_false c8Polls 3 "Cash" (by
    intro i _ b hb
    simp only [c8Polls, List.mem_singleton] at hb
    subst hb
    decide)

/-- The empty-check loop exits early, so it executes at most
`iterDone + fuel` iterations in total. -/
theorem clearFieldLoop_iterations_le (fieldsAt : Nat → List String) :
    ∀ fuel s c, (clearFieldLoop fieldsAt s c fuel).iterations ≤ s + fuel := by
  intro fuel
  induction fuel with
  | zero =>
    intro s c
    simp [clearFieldLoop]
  | succ n ih =>
    intro s c
    simp only [clearFieldLoop]
    by_cases h : allCleared (fieldsAt s) = true
    · rw [if_pos h]
      show s + 1 ≤ s + (n + 1)
      omega
    · rw [if_neg h]
      have := ih (s + 1) (c + dirtyCount (fieldsAt s))
      omega

/-- An iteration that observes only empty fields reports cleared at once
with no clicks. -/
theorem clearFieldLoop_cleared (fieldsAt : Nat → List String) (s c n : Nat)
    (h : allCleared (fieldsAt s) = true) :
    clearFieldLoop fieldsAt s c (n + 1) = ⟨s + 1, c, true⟩ := by
  simp only [clearFieldLoop]
  rw [if_pos h]

/-- C9: when every edit field is already empty at the first look,
`_clear_ean_field` exits after a single iteration, reports the field
cleared and performs no back-space clicks; and for every environment it
performs at most 20 iterations and returns normally (its only outcome is a
`ClearResult` — there is no failure signal even when fields remain
non-empty at the bound). -/
theorem C9_clear_idempotent_and_bounded (fieldsAt : Nat → List String) :
    (allCleared (fieldsAt 0) = true →
      clear_ean_field fieldsAt = ⟨1, 0, true⟩) ∧
    (clear_ean_field fieldsAt).iterations ≤ 20 := by
  constructor
  · intro h
    exact clearFieldLoop_cleared fieldsAt 0 0 19 h
  · have := clearFieldLoop_iterations_le fieldsAt 20 0 0
    simpa using this

/-- C9 witness: the statement evaluated on an environment whose two edit
fields hold only whitespace. -/
theorem C9_witness :
    clear_ean_field (fun _ => ["", "  "]) = ⟨1, 0, true⟩ ∧
    (clear_ean_field (fun _ => ["", "  "])).iterations ≤ 20 :=
  ⟨(C9_clear_idempotent_and_bounded (fun _ => ["", "  "])).1 (by decide),
   (C9_clear_idempotent_and_bounded (fun _ => ["", "  "])).2⟩

end POSModel
